import Mathlib

/-!
A shallow embedding of the VidSentry SDK client (`src/client.ts`, `src/errors.ts`,
`src/types.ts`) in Lean 4, together with theorems settling the frozen claims about
its error taxonomy, transport, domain operations and completion poller.

Modelling conventions:
* JavaScript runtime values that can appear in error details and JSON bodies are
  modelled by the inductive `JsVal` (including `NaN` and `undefined`, which JS
  distinguishes from JSON values).
* JavaScript's `x || d` defaulting on strings/numbers (falsy: absent, empty
  string, zero, NaN) is modelled by `jsOrStr` / `jsOrNat`.
* Exceptions become `Except` / explicit result constructors; the `async` transport
  call becomes a function of the runtime outcome of the single `fetch`
  (`FetchOutcome`), and the `setTimeout`/`AbortController` pair becomes explicit
  fields (`timerCleared`, `abortCalled`) of the resulting `RequestTrace`:
  the runtime semantics modelled is that when the deadline elapses first, the
  armed timer fires, calls `controller.abort()`, and the in-flight `fetch`
  rejects with an `AbortError`.
* The poller's `while` loop over wall-clock time becomes a fuel-indexed loop
  `waitLoop` over an abstract trace of status-fetch results and durations;
  `PollResult.stuck` marks fuel exhaustion and is proved unreachable for the
  fuel chosen by `waitForCompletion`, which is the termination statement.
-/

/-- A JavaScript runtime value, as can appear in decoded JSON bodies and in the
`details` payload of an error (JS also allows `NaN` and `undefined` there). -/
inductive JsVal where
  | str (s : String)
  | num (q : ℚ)
  | nan
  | bool (b : Bool)
  | null
  | undef
  | arr (xs : List JsVal)
  | obj (fields : List (String × JsVal))
deriving Repr

/-- Model of `Error` subclasses in `errors.ts`: every VidSentry error carries a
`name` (set by each subclass), a human-readable `message`, a stable string
`code`, and an optional structured `details` record (`undef` when not given). -/
structure SdkError where
  name : String
  message : String
  code : String
  details : JsVal
deriving Repr

/-- `class AuthenticationError` from `errors.ts` (code `AUTHENTICATION_ERROR`). -/
def AuthenticationError (message : String := "Invalid or expired API key") : SdkError :=
  { name := "AuthenticationError", message := message,
    code := "AUTHENTICATION_ERROR", details := JsVal.undef }

/-- `class RateLimitError` from `errors.ts`: stores `retryAfter` in its details
record (code `RATE_LIMIT_ERROR`). -/
def RateLimitError (message : String := "Rate limit exceeded")
    (retryAfter : JsVal := JsVal.undef) : SdkError :=
  { name := "RateLimitError", message := message,
    code := "RATE_LIMIT_ERROR", details := JsVal.obj [("retryAfter", retryAfter)] }

/-- JavaScript's `Number.prototype.toFixed(2)`, used by the
`InsufficientFundsError` message (decimal rendering with two fraction digits;
rounding is modelled as round-half-up on exact rationals). -/
def formatFixed2 (q : ℚ) : String :=
  let c : Int := round (q * 100)
  let sign := if c < 0 then "-" else ""
  let a := c.natAbs
  let fr := a % 100
  sign ++ toString (a / 100) ++ "." ++ (if fr < 10 then "0" else "") ++ toString fr

/-- `class InsufficientFundsError` from `errors.ts` (code `INSUFFICIENT_FUNDS`),
carrying the numeric `required` and `available` amounts in its details. -/
def InsufficientFundsError (required available : ℚ) : SdkError :=
  { name := "InsufficientFundsError",
    message := "Insufficient funds. Required: R" ++ formatFixed2 required ++
      ", Available: R" ++ formatFixed2 available,
    code := "INSUFFICIENT_FUNDS",
    details := JsVal.obj [("required", JsVal.num required), ("available", JsVal.num available)] }

/-- `class NotFoundError` from `errors.ts` (code `NOT_FOUND`), carrying
`resource` and `id` in its details. -/
def NotFoundError (resource id : String) : SdkError :=
  { name := "NotFoundError", message := resource ++ " not found: " ++ id,
    code := "NOT_FOUND",
    details := JsVal.obj [("resource", JsVal.str resource), ("id", JsVal.str id)] }

/-- `class TimeoutError` from `errors.ts` (code `TIMEOUT_ERROR`). -/
def TimeoutError (message : String := "Request timed out") : SdkError :=
  { name := "TimeoutError", message := message,
    code := "TIMEOUT_ERROR", details := JsVal.undef }

/-- `class NetworkError` from `errors.ts` (code `NETWORK_ERROR`). -/
def NetworkError (message : String := "Network error") : SdkError :=
  { name := "NetworkError", message := message,
    code := "NETWORK_ERROR", details := JsVal.undef }

/-- JavaScript `x || d` for an optional string: the default is used when the
value is absent (`undefined`/`null`) or the empty string (both falsy). -/
def jsOrStr (x : Option String) (d : String) : String :=
  match x with
  | none => d
  | some s => if s = "" then d else s

/-- JavaScript `x || d` for an optional number used as a nonnegative integer of
milliseconds: the default is used when the value is absent or `0` (falsy). -/
def jsOrNat (x : Option Nat) (d : Nat) : Nat :=
  match x with
  | none => d
  | some n => if n = 0 then d else n

/-- Property lookup `v[k]` on a decoded JS value: yields `undefined` for a
missing key or a non-object receiver. -/
def getField (v : JsVal) (k : String) : JsVal :=
  match v with
  | JsVal.obj fields =>
    match fields.lookup k with
    | some x => x
    | none => JsVal.undef
  | _ => JsVal.undef

/-- `(v as string) || d` for a field that is a string when present: the default
is used when the field is absent or the empty string. -/
def asStringOr (v : JsVal) (d : String) : String :=
  match v with
  | JsVal.str s => if s = "" then d else s
  | _ => d

/-- `(v as number) || 0` for a field that is a number when present: absent
fields (and `NaN`, which is falsy) default to `0`. -/
def asNumOr0 (v : JsVal) : ℚ :=
  match v with
  | JsVal.num q => q
  | _ => 0

/-- JavaScript `parseInt(s, 10)`: skip leading whitespace, read an optional
sign, then the maximal run of leading decimal digits; `none` models the `NaN`
result when no digit is found. -/
def parseIntJS (s : String) : Option Int :=
  let cs := s.toList.dropWhile fun c => c = ' ' ∨ c = '\t' ∨ c = '\n' ∨ c = '\r'
  let signed : Int × List Char :=
    match cs with
    | '-' :: rest => (-1, rest)
    | '+' :: rest => (1, rest)
    | _ => (1, cs)
  let digits := signed.2.takeWhile Char.isDigit
  if digits = [] then none
  else some (signed.1 * (digits.foldl (fun a c => a * 10 + (c.toNat - 48)) 0 : Nat))

/-- An HTTP response as the transport sees it: status, status text, the
`Retry-After` header slot (`none` when absent), and the result of
`response.json()` (`Except.error` carries the JSON parse failure message). -/
structure HttpResponse where
  status : Nat
  statusText : String
  retryAfterHeader : Option String
  bodyJson : Except String JsVal
deriving Repr

/-- `response.ok`: status in the 2xx range. -/
def respOk (r : HttpResponse) : Bool :=
  decide (200 ≤ r.status ∧ r.status < 300)

/-- The `errorData` local of `handleErrorResponse`: the decoded JSON body, or
an empty record when the body is not JSON. -/
def errorDataOf (r : HttpResponse) : JsVal :=
  match r.bodyJson with
  | Except.ok v => v
  | Except.error _ => JsVal.obj []

/-- The `message` local of `handleErrorResponse`:
`(errorData.error as string) || response.statusText`. -/
def respMessage (r : HttpResponse) : String :=
  asStringOr (getField (errorDataOf r) "error") r.statusText

/-- The `retryAfter` local of the 429 branch:
`parseInt(response.headers.get('Retry-After') || '60', 10)`, as a JS number
(`nan` when `parseInt` fails). -/
def retryAfterOf (r : HttpResponse) : JsVal :=
  match parseIntJS (jsOrStr r.retryAfterHeader "60") with
  | some n => JsVal.num (n : ℚ)
  | none => JsVal.nan

/-- `VidSentry.handleErrorResponse` from `client.ts`: maps a non-2xx response
to the error it throws (the `switch` on `response.status`). -/
def handleErrorResponse (r : HttpResponse) : SdkError :=
  if r.status = 401 then AuthenticationError (respMessage r)
  else if r.status = 403 then
    AuthenticationError "API key does not have permission for this action"
  else if r.status = 404 then NotFoundError "Resource" "unknown"
  else if r.status = 429 then RateLimitError (respMessage r) (retryAfterOf r)
  else if r.status = 402 then
    InsufficientFundsError (asNumOr0 (getField (errorDataOf r) "required"))
      (asNumOr0 (getField (errorDataOf r) "available"))
  else
    { name := "VidSentryError", message := respMessage r,
      code := "HTTP_" ++ toString r.status, details := errorDataOf r }

/-- The runtime outcome of the single `fetch` performed by
`VidSentry.request`: the response completes before the deadline, the deadline
elapses first (the armed timer fires and aborts the call), or the fetch fails
with a non-abort exception carrying a message. -/
inductive FetchOutcome where
  | completes (r : HttpResponse)
  | deadlineExceeded
  | networkFailure (msg : String)
deriving Repr

/-- Observable trace of one `VidSentry.request` call: its result, whether the
deadline timer was cleared (`clearTimeout`), and whether `controller.abort()`
was invoked on the in-flight call. -/
structure RequestTrace where
  result : Except SdkError JsVal
  timerCleared : Bool
  abortCalled : Bool
deriving Repr

/-- `VidSentry.request` from `client.ts`, as a function of the fetch outcome:
on a 2xx response it decodes and returns the JSON body (a non-JSON success
body makes `response.json()` throw, which the catch block wraps as a
`NetworkError`); on a non-2xx response it throws `handleErrorResponse`'s
error (a `VidSentryError`, re-raised unchanged by the catch block); when the
deadline elapses the timer calls `controller.abort()`, the fetch rejects with
an `AbortError`, and the catch block throws `TimeoutError`; any other fetch
failure becomes a `NetworkError`. `clearTimeout` runs on the success path and
in the catch block, so every path clears the timer. -/
def runRequest (o : FetchOutcome) : RequestTrace :=
  match o with
  | FetchOutcome.completes r =>
    if respOk r then
      match r.bodyJson with
      | Except.ok v =>
        { result := Except.ok v, timerCleared := true, abortCalled := false }
      | Except.error m =>
        { result := Except.error (NetworkError m), timerCleared := true, abortCalled := false }
    else
      { result := Except.error (handleErrorResponse r),
        timerCleared := true, abortCalled := false }
  | FetchOutcome.deadlineExceeded =>
    { result := Except.error (TimeoutError "Request timed out"),
      timerCleared := true, abortCalled := true }
  | FetchOutcome.networkFailure m =>
    { result := Except.error (NetworkError m), timerCleared := true, abortCalled := false }

/-- `VidSentryConfig` from `types.ts`: optional fields are `none` when omitted
by the caller. -/
structure VidSentryConfig where
  apiKey : String
  baseUrl : Option String := none
  timeout : Option Nat := none
  debug : Option Bool := none
deriving Repr

/-- The private fields of a constructed `VidSentry` client. -/
structure ClientState where
  apiKey : String
  baseUrl : String
  timeout : Nat
  debug : Bool
deriving Repr

/-- `String.prototype.startsWith('vs_')`, the constructor's key-format check,
modelled on the character lists of the strings. -/
def startsWithVs (s : String) : Bool :=
  "vs_".toList.isPrefixOf s.toList

/-- The `VidSentry` constructor from `client.ts`: rejects an empty key and a
key not starting with the literal `vs_`, then stores the configuration with
`||`-defaults applied (base URL, 30000 ms timeout, debug off). It performs no
network access: it is a pure function of the configuration. -/
def mkVidSentry (config : VidSentryConfig) : Except SdkError ClientState :=
  if config.apiKey = "" then
    Except.error (AuthenticationError "API key is required")
  else if startsWithVs config.apiKey = false then
    Except.error
      (AuthenticationError "Invalid API key format. Keys should start with vs_live_ or vs_test_")
  else
    Except.ok
      { apiKey := config.apiKey,
        baseUrl := jsOrStr config.baseUrl "https://cyzacqndakvnxhohmbgx.supabase.co",
        timeout := jsOrNat config.timeout 30000,
        debug := config.debug.getD false }

/-- `ModerationSettings` from `types.ts`. -/
structure ModerationSettings where
  blur : Option Bool := none
  mute : Option Bool := none
  visualSensitivity : Option ℚ := none
  audioSensitivity : Option ℚ := none
deriving Repr

/-- The settings fallback `{ blur: true, mute: true }` used by `moderate`. -/
def defaultSettings : ModerationSettings :=
  { blur := some true, mute := some true }

/-- `ModerateOptions` from `types.ts`: all fields optional. -/
structure ModerateOptions where
  videoUrl : Option String := none
  gcsUri : Option String := none
  filePath : Option String := none
  title : Option String := none
  tier : Option String := none
  settings : Option ModerationSettings := none
deriving Repr

/-- JavaScript falsiness of an optional string (`!x`): true when the value is
absent or the empty string. -/
def strFalsy (x : Option String) : Bool :=
  match x with
  | none => true
  | some s => decide (s = "")

/-- The JSON body `moderate` sends in its POST. -/
structure SubmitBody where
  title : String
  videoUrl : Option String
  gcsUri : Option String
  filePath : Option String
  tier : String
  settings : ModerationSettings
deriving Repr

/-- What `VidSentry.moderate` does before returning: either it fails
validation (raising the error without invoking the transport at all — the
constructor carries no request), or it issues exactly one POST with the given
path and body. -/
inductive SubmitAction where
  | validationFailure (e : SdkError)
  | post (path : String) (body : SubmitBody)
deriving Repr

/-- `VidSentry.moderate` from `client.ts`: with no truthy content locator
among `videoUrl`, `gcsUri`, `filePath` it throws a `VALIDATION_ERROR` before
any transport call; otherwise it issues one POST to
`/functions/v1/unified-moderate` with `||`-defaults applied to title, tier
and settings. -/
def moderate (options : ModerateOptions) : SubmitAction :=
  if strFalsy options.videoUrl ∧ strFalsy options.gcsUri ∧ strFalsy options.filePath then
    SubmitAction.validationFailure
      { name := "VidSentryError",
        message := "One of videoUrl, gcsUri, or filePath is required",
        code := "VALIDATION_ERROR", details := JsVal.undef }
  else
    SubmitAction.post "/functions/v1/unified-moderate"
      { title := jsOrStr options.title "SDK Upload",
        videoUrl := options.videoUrl,
        gcsUri := options.gcsUri,
        filePath := options.filePath,
        tier := jsOrStr options.tier "standard",
        settings := options.settings.getD defaultSettings }

/-- One record of the wire collection returned by
`GET /rest/v1/moderation_jobs?id=eq.<jobId>&select=*`, with the wire
(snake_case) field names; every field may be absent on the wire. -/
structure WireJob where
  id : Option String := none
  video_id : Option String := none
  status : Option String := none
  original_url : Option String := none
  moderated_url : Option String := none
  detections : Option JsVal := none
  gemini_analysis : Option JsVal := none
  error_msg : Option String := none
  processing_started_at : Option String := none
  processing_completed_at : Option String := none
  created_at : Option String := none
deriving Repr

/-- `JobDetails` from `types.ts` with the canonical (camelCase) field names;
a field absent on the wire stays `none` (undefined), never defaulted. -/
structure JobDetails where
  id : Option String
  videoId : Option String
  status : Option String
  originalUrl : Option String
  moderatedUrl : Option String
  detections : Option JsVal
  geminiAnalysis : Option JsVal
  errorMessage : Option String
  processingStartedAt : Option String
  processingCompletedAt : Option String
  createdAt : Option String
deriving Repr

/-- `VidSentry.getJobStatus` from `client.ts`, as a function of the decoded
wire collection (`none` models a null/absent response body): an empty or
missing collection raises `NotFoundError('Job', jobId)`; otherwise the first
element is remapped to the canonical `JobDetails` field names. -/
def getJobStatus (jobId : String) (response : Option (List WireJob)) :
    Except SdkError JobDetails :=
  match response with
  | none => Except.error (NotFoundError "Job" jobId)
  | some [] => Except.error (NotFoundError "Job" jobId)
  | some (job :: _) =>
    Except.ok
      { id := job.id,
        videoId := job.video_id,
        status := job.status,
        originalUrl := job.original_url,
        moderatedUrl := job.moderated_url,
        detections := job.detections,
        geminiAnalysis := job.gemini_analysis,
        errorMessage := job.error_msg,
        processingStartedAt := job.processing_started_at,
        processingCompletedAt := job.processing_completed_at,
        createdAt := job.created_at }

/-- The terminal-status test of `waitForCompletion`:
`['moderated', 'blurred', 'error', 'cancelled'].includes(job.status)`
(an absent status is not in the list). -/
def statusIsTerminal (s : Option String) : Bool :=
  match s with
  | some str => ["moderated", "blurred", "error", "cancelled"].contains str
  | none => false

/-- The `TimeoutError` message thrown by `waitForCompletion`:
`` `Job ${jobId} did not complete within ${maxWait / 1000} seconds` ``
(the JS number `maxWait / 1000` is modelled as an exact rational). -/
def timeoutMessage (jobId : String) (maxWait : Nat) : String :=
  "Job " ++ jobId ++ (" did not complete within " ++
    toString ((maxWait : ℚ) / 1000) ++ " seconds")

/-- Outcome of one `waitForCompletion` call over an abstract trace:
`completed job t k s` — a terminal job returned at elapsed time `t` after `k`
status fetches and `s` sleeps; `failed e t k s` — a status-fetch error `e`
propagated at time `t`; `timedOut e t k s` — the max-wait elapsed and the
`TimeoutError` `e` was thrown at time `t`; `stuck` — fuel exhausted (proved
unreachable for the fuel `waitForCompletion` supplies). -/
inductive PollResult where
  | completed (job : JobDetails) (time fetchCount sleepCount : Nat)
  | failed (e : SdkError) (time fetchCount sleepCount : Nat)
  | timedOut (e : SdkError) (time fetchCount sleepCount : Nat)
  | stuck
deriving Repr

/-- The `while (Date.now() - startTime < maxWait)` loop of
`waitForCompletion`, over a trace assigning to each fetch index its result
(`fetches`) and its duration in ms (`dur`). State: remaining `fuel`, elapsed
time `t`, and the index `k` of the next fetch (equal to the number of sleeps
performed so far, since the loop sleeps `pollInterval` after every
non-terminal fetch). -/
def waitLoop (jobId : String) (fetches : Nat → Except SdkError JobDetails)
    (dur : Nat → Nat) (maxWait pollInterval : Nat) :
    Nat → Nat → Nat → PollResult
  | 0, _, _ => PollResult.stuck
  | fuel + 1, t, k =>
    if t < maxWait then
      match fetches k with
      | Except.error e => PollResult.failed e (t + dur k) (k + 1) k
      | Except.ok job =>
        if statusIsTerminal job.status then
          PollResult.completed job (t + dur k) (k + 1) k
        else
          waitLoop jobId fetches dur maxWait pollInterval fuel (t + dur k + pollInterval) (k + 1)
    else
      PollResult.timedOut (TimeoutError (timeoutMessage jobId maxWait)) t k k

/-- `VidSentry.waitForCompletion` from `client.ts`: applies the `||`-defaults
(max-wait 300000 ms, poll interval 5000 ms) and runs the polling loop from
time 0; the fuel `maxWait / pollInterval + 2` strictly exceeds the possible
number of iterations (proved below), so `stuck` is never returned. -/
def waitForCompletion (jobId : String) (fetches : Nat → Except SdkError JobDetails)
    (dur : Nat → Nat) (maxWaitOpt pollIntervalOpt : Option Nat) : PollResult :=
  let maxWait := jsOrNat maxWaitOpt 300000
  let pollInterval := jsOrNat pollIntervalOpt 5000
  waitLoop jobId fetches dur maxWait pollInterval (maxWait / pollInterval + 2) 0 0

/-- Number of status fetches performed in a poll outcome. -/
def fetchCountOf : PollResult → Nat
  | PollResult.completed _ _ k _ => k
  | PollResult.failed _ _ k _ => k
  | PollResult.timedOut _ _ k _ => k
  | PollResult.stuck => 0

/-- Sum of the durations of the first `n` status fetches of a trace. -/
def durSum (dur : Nat → Nat) : Nat → Nat
  | 0 => 0
  | n + 1 => durSum dur n + dur n

/-- The `||`-default of a positive default is positive (JS treats `0` as falsy,
so the stored value can never be `0`). -/
theorem jsOrNat_pos (x : Option Nat) (d : Nat) (hd : 0 < d) : 0 < jsOrNat x d := by
  cases x with
  | none => simpa [jsOrNat] using hd
  | some n =>
    by_cases hn : n = 0
    · simpa [jsOrNat, hn] using hd
    · simp only [jsOrNat, if_neg hn]
      omega

/-- One-step unfolding of `waitLoop` at zero fuel. -/
theorem waitLoop_zero (jobId : String) (fetches : Nat → Except SdkError JobDetails)
    (dur : Nat → Nat) (M P t k : Nat) :
    waitLoop jobId fetches dur M P 0 t k = PollResult.stuck := rfl

/-- One-step unfolding of `waitLoop` at successor fuel. -/
theorem waitLoop_succ (jobId : String) (fetches : Nat → Except SdkError JobDetails)
    (dur : Nat → Nat) (M P fuel t k : Nat) :
    waitLoop jobId fetches dur M P (fuel + 1) t k =
      (if t < M then
        match fetches k with
        | Except.error e => PollResult.failed e (t + dur k) (k + 1) k
        | Except.ok job =>
          if statusIsTerminal job.status then
            PollResult.completed job (t + dur k) (k + 1) k
          else waitLoop jobId fetches dur M P fuel (t + dur k + P) (k + 1)
      else PollResult.timedOut (TimeoutError (timeoutMessage jobId M)) t k k) := rfl

/-- With fuel exceeding the iteration count forced by the elapsed-time bound,
the loop never exhausts its fuel: each iteration advances time by at least
`P`, so under `M ≤ t + fuel * P` the supplied fuel suffices. -/
theorem waitLoop_ne_stuck (jobId : String) (fetches : Nat → Except SdkError JobDetails)
    (dur : Nat → Nat) (M P : Nat) :
    ∀ fuel t k, M ≤ t + fuel * P →
      waitLoop jobId fetches dur M P (fuel + 1) t k ≠ PollResult.stuck := by
  intro fuel
  induction fuel with
  | zero =>
    intro t k hM
    simp only [Nat.zero_mul, Nat.add_zero] at hM
    have ht : ¬ t < M := by omega
    rw [waitLoop_succ, if_neg ht]
    simp
  | succ f ih =>
    intro t k hM
    rw [waitLoop_succ]
    by_cases ht : t < M
    · rw [if_pos ht]
      cases hf : fetches k with
      | error e => simp
      | ok job =>
        dsimp only
        by_cases hterm : statusIsTerminal job.status = true
        · simp [hterm]
        · rw [if_neg (by simpa using hterm)]
          apply ih
          have hexp : t + (f + 1) * P = (t + P) + f * P := by ring
          rw [hexp] at hM
          exact le_trans hM (Nat.add_le_add_right (by omega) _)
    · rw [if_neg ht]
      simp

/-- Fetch-count bound for the loop: once the max-wait has elapsed no further
fetch happens, and below the max-wait the loop can perform at most one fetch
per elapsed poll interval, plus the one in flight. -/
theorem waitLoop_count (jobId : String) (fetches : Nat → Except SdkError JobDetails)
    (dur : Nat → Nat) (M P : Nat) (hP : 0 < P) :
    ∀ fuel t k, waitLoop jobId fetches dur M P fuel t k ≠ PollResult.stuck →
      (M ≤ t → fetchCountOf (waitLoop jobId fetches dur M P fuel t k) = k) ∧
      (t < M → fetchCountOf (waitLoop jobId fetches dur M P fuel t k) ≤
        k + 1 + (M - t - 1) / P) := by
  intro fuel
  induction fuel with
  | zero =>
    intro t k h
    rw [waitLoop_zero] at h
    exact absurd rfl h
  | succ f ih =>
    intro t k h
    rw [waitLoop_succ] at h ⊢
    constructor
    · intro hMt
      have ht : ¬ t < M := by omega
      rw [if_neg ht]
      rfl
    · intro ht
      rw [if_pos ht] at h ⊢
      revert h
      cases hf : fetches k with
      | error e =>
        intro _
        exact Nat.le_add_right _ _
      | ok job =>
        dsimp only
        by_cases hterm : statusIsTerminal job.status = true
        · rw [if_pos (by simpa using hterm)]
          intro _
          exact Nat.le_add_right _ _
        · rw [if_neg (by simpa using hterm)]
          intro h
          have ih2 := ih (t + dur k + P) (k + 1) h
          by_cases h2 : M ≤ t + dur k + P
          · rw [ih2.1 h2]
            exact Nat.le_add_right _ _
          · push_neg at h2
            have hb := ih2.2 h2
            have key : 1 + (M - (t + dur k + P) - 1) / P ≤ (M - t - 1) / P := by
              have hle : (M - (t + dur k + P) - 1) + P ≤ M - t - 1 := by omega
              calc 1 + (M - (t + dur k + P) - 1) / P
                  = ((M - (t + dur k + P) - 1) + P) / P := by
                    rw [Nat.add_div_right _ hP, Nat.add_comm]
                _ ≤ (M - t - 1) / P := Nat.div_le_div_right hle
            calc fetchCountOf (waitLoop jobId fetches dur M P f (t + dur k + P) (k + 1))
                ≤ (k + 1) + 1 + (M - (t + dur k + P) - 1) / P := hb
              _ = k + 1 + (1 + (M - (t + dur k + P) - 1) / P) := by ring
              _ ≤ k + 1 + (M - t - 1) / P := Nat.add_le_add_left key _

/-- Shape of a completed outcome: the last fetch (index `sleepCount`, with
`fetchCount = sleepCount + 1`) returned the job, its status is terminal, and
the return happens one fetch duration after a loop entry that was still below
the max-wait. -/
theorem waitLoop_completed_shape (jobId : String)
    (fetches : Nat → Except SdkError JobDetails) (dur : Nat → Nat) (M P : Nat) :
    ∀ fuel t k j t2 k2 s2,
      waitLoop jobId fetches dur M P fuel t k = PollResult.completed j t2 k2 s2 →
      k2 = s2 + 1 ∧ fetches s2 = Except.ok j ∧ statusIsTerminal j.status = true ∧
      ∃ te, te < M ∧ t2 = te + dur s2 := by
  intro fuel
  induction fuel with
  | zero =>
    intro t k j t2 k2 s2 h
    rw [waitLoop_zero] at h
    exact absurd h (by simp)
  | succ f ih =>
    intro t k j t2 k2 s2
    rw [waitLoop_succ]
    by_cases ht : t < M
    · rw [if_pos ht]
      cases hf : fetches k with
      | error e =>
        intro h
        exact absurd h (by simp)
      | ok job =>
        dsimp only
        by_cases hterm : statusIsTerminal job.status = true
        · rw [if_pos (by simpa using hterm)]
          intro h
          injection h with h1 h2 h3 h4
          subst h1; subst h2; subst h3; subst h4
          exact ⟨rfl, hf, hterm, ⟨t, ht, rfl⟩⟩
        · rw [if_neg (by simpa using hterm)]
          exact ih _ _ _ _ _ _
    · rw [if_neg ht]
      intro h
      exact absurd h (by simp)

/-- Shape of a failed outcome: the last fetch (index `sleepCount`) raised
exactly the propagated error, it was the final fetch (`fetchCount =
sleepCount + 1`, so the error is not retried), and propagation happens one
fetch duration after a loop entry below the max-wait (no sleep after it). -/
theorem waitLoop_failed_shape (jobId : String)
    (fetches : Nat → Except SdkError JobDetails) (dur : Nat → Nat) (M P : Nat) :
    ∀ fuel t k e t2 k2 s2,
      waitLoop jobId fetches dur M P fuel t k = PollResult.failed e t2 k2 s2 →
      k2 = s2 + 1 ∧ fetches s2 = Except.error e ∧
      ∃ te, te < M ∧ t2 = te + dur s2 := by
  intro fuel
  induction fuel with
  | zero =>
    intro t k e t2 k2 s2 h
    rw [waitLoop_zero] at h
    exact absurd h (by simp)
  | succ f ih =>
    intro t k e t2 k2 s2
    rw [waitLoop_succ]
    by_cases ht : t < M
    · rw [if_pos ht]
      cases hf : fetches k with
      | error e2 =>
        intro h
        injection h with h1 h2 h3 h4
        subst h1; subst h2; subst h3; subst h4
        exact ⟨rfl, hf, ⟨t, ht, rfl⟩⟩
      | ok job =>
        dsimp only
        by_cases hterm : statusIsTerminal job.status = true
        · rw [if_pos (by simpa using hterm)]
          intro h
          exact absurd h (by simp)
        · rw [if_neg (by simpa using hterm)]
          exact ih _ _ _ _ _ _
    · rw [if_neg ht]
      intro h
      exact absurd h (by simp)

/-- Shape of a timed-out outcome: the thrown error is the `TimeoutError` with
the job-and-seconds message, the loop observed elapsed time at or past the
max-wait, and it had slept after every one of its fetches. -/
theorem waitLoop_timedOut_shape (jobId : String)
    (fetches : Nat → Except SdkError JobDetails) (dur : Nat → Nat) (M P : Nat) :
    ∀ fuel t k e t2 k2 s2,
      waitLoop jobId fetches dur M P fuel t k = PollResult.timedOut e t2 k2 s2 →
      e = TimeoutError (timeoutMessage jobId M) ∧ M ≤ t2 ∧ k2 = s2 := by
  intro fuel
  induction fuel with
  | zero =>
    intro t k e t2 k2 s2 h
    rw [waitLoop_zero] at h
    exact absurd h (by simp)
  | succ f ih =>
    intro t k e t2 k2 s2
    rw [waitLoop_succ]
    by_cases ht : t < M
    · rw [if_pos ht]
      cases hf : fetches k with
      | error e2 =>
        intro h
        exact absurd h (by simp)
      | ok job =>
        dsimp only
        by_cases hterm : statusIsTerminal job.status = true
        · rw [if_pos (by simpa using hterm)]
          intro h
          exact absurd h (by simp)
        · rw [if_neg (by simpa using hterm)]
          exact ih _ _ _ _ _ _
    · rw [if_neg ht]
      intro h
      injection h with h1 h2 h3 h4
      subst h1; subst h2; subst h3; subst h4
      exact ⟨rfl, by omega, rfl⟩

/-- Time accounting for the loop: starting from a loop-head time equal to the
durations of the fetches so far plus one full poll interval of sleep per
fetch, every outcome's time is the sum of all its fetch durations plus
exactly `sleepCount` sleeps of exactly `P` milliseconds. -/
theorem waitLoop_time (jobId : String)
    (fetches : Nat → Except SdkError JobDetails) (dur : Nat → Nat) (M P : Nat) :
    ∀ fuel t k, t = durSum dur k + k * P →
      (∀ j t2 k2 s2,
        waitLoop jobId fetches dur M P fuel t k = PollResult.completed j t2 k2 s2 →
        t2 = durSum dur k2 + s2 * P) ∧
      (∀ e t2 k2 s2,
        waitLoop jobId fetches dur M P fuel t k = PollResult.failed e t2 k2 s2 →
        t2 = durSum dur k2 + s2 * P) ∧
      (∀ e t2 k2 s2,
        waitLoop jobId fetches dur M P fuel t k = PollResult.timedOut e t2 k2 s2 →
        t2 = durSum dur s2 + s2 * P) := by
  intro fuel
  induction fuel with
  | zero =>
    intro t k _
    rw [waitLoop_zero]
    refine ⟨?_, ?_, ?_⟩ <;> · intro a b c d h; exact absurd h (by simp)
  | succ f ih =>
    intro t k htk
    rw [waitLoop_succ]
    by_cases ht : t < M
    · rw [if_pos ht]
      cases hf : fetches k with
      | error e2 =>
        refine ⟨?_, ?_, ?_⟩
        · intro a b c d h; exact absurd h (by simp)
        · intro e t2 k2 s2 h
          injection h with h1 h2 h3 h4
          subst h1; subst h2; subst h3; subst h4
          rw [htk]
          simp only [durSum]
          ring
        · intro a b c d h; exact absurd h (by simp)
      | ok job =>
        dsimp only
        by_cases hterm : statusIsTerminal job.status = true
        · rw [if_pos (by simpa using hterm)]
          refine ⟨?_, ?_, ?_⟩
          · intro j t2 k2 s2 h
            injection h with h1 h2 h3 h4
            subst h1; subst h2; subst h3; subst h4
            rw [htk]
            simp only [durSum]
            ring
          · intro a b c d h; exact absurd h (by simp)
          · intro a b c d h; exact absurd h (by simp)
        · rw [if_neg (by simpa using hterm)]
          apply ih
          rw [htk]
          simp only [durSum]
          ring
    · rw [if_neg ht]
      refine ⟨?_, ?_, ?_⟩
      · intro a b c d h; exact absurd h (by simp)
      · intro a b c d h; exact absurd h (by simp)
      · intro e t2 k2 s2 h
        injection h with h1 h2 h3 h4
        subst h1; subst h2; subst h3; subst h4
        exact htk

/-- Unfolding `waitForCompletion` to the loop it runs. -/
theorem waitForCompletion_eq (jobId : String)
    (fetches : Nat → Except SdkError JobDetails) (dur : Nat → Nat)
    (maxWaitOpt pollIntervalOpt : Option Nat) :
    waitForCompletion jobId fetches dur maxWaitOpt pollIntervalOpt =
      waitLoop jobId fetches dur (jsOrNat maxWaitOpt 300000) (jsOrNat pollIntervalOpt 5000)
        (jsOrNat maxWaitOpt 300000 / jsOrNat pollIntervalOpt 5000 + 2) 0 0 := rfl

/-- The chosen fuel satisfies the elapsed-time bound of `waitLoop_ne_stuck`. -/
theorem fuel_big_enough (M P : Nat) (hP : 0 < P) : M ≤ 0 + (M / P + 1) * P := by
  have hdm := Nat.div_add_mod M P
  have hmod : M % P < P := Nat.mod_lt M hP
  calc M = P * (M / P) + M % P := hdm.symm
    _ ≤ P * (M / P) + P := Nat.add_le_add_left (le_of_lt hmod) _
    _ = (M / P + 1) * P := by ring
    _ = 0 + (M / P + 1) * P := (Nat.zero_add _).symm

/-- Claim C2: for every max-wait `M` and poll interval `P` (the effective,
`||`-defaulted values) with `P ≤ M`, `waitForCompletion` (1) always
terminates (never exhausts its fuel), (2) performs at most `⌈M/P⌉ + 1` status
fetches over the whole call, (3) when a fetched status is terminal returns
the job strictly within `M` plus that final status-fetch's duration of its
start, and (4) otherwise raises at elapsed time at or after `M` the
`TimeoutError` whose message names the job ID and `M` expressed in seconds
(`M / 1000` as an exact rational). -/
theorem poller_bound_c2 (jobId : String)
    (fetches : Nat → Except SdkError JobDetails) (dur : Nat → Nat)
    (maxWaitOpt pollIntervalOpt : Option Nat)
    (hPM : jsOrNat pollIntervalOpt 5000 ≤ jsOrNat maxWaitOpt 300000) :
    waitForCompletion jobId fetches dur maxWaitOpt pollIntervalOpt ≠ PollResult.stuck ∧
    fetchCountOf (waitForCompletion jobId fetches dur maxWaitOpt pollIntervalOpt) ≤
      (jsOrNat maxWaitOpt 300000 + jsOrNat pollIntervalOpt 5000 - 1) /
        jsOrNat pollIntervalOpt 5000 + 1 ∧
    (∀ j t2 k2 s2,
      waitForCompletion jobId fetches dur maxWaitOpt pollIntervalOpt =
        PollResult.completed j t2 k2 s2 →
      t2 < jsOrNat maxWaitOpt 300000 + dur s2) ∧
    (∀ e t2 k2 s2,
      waitForCompletion jobId fetches dur maxWaitOpt pollIntervalOpt =
        PollResult.timedOut e t2 k2 s2 →
      jsOrNat maxWaitOpt 300000 ≤ t2 ∧
      e = TimeoutError (timeoutMessage jobId (jsOrNat maxWaitOpt 300000))) ∧
    (∃ a b, timeoutMessage jobId (jsOrNat maxWaitOpt 300000) = a ++ jobId ++ b) ∧
    (∃ a b, timeoutMessage jobId (jsOrNat maxWaitOpt 300000) =
      a ++ toString ((jsOrNat maxWaitOpt 300000 : ℚ) / 1000) ++ b) := by
  have hMpos : 0 < jsOrNat maxWaitOpt 300000 := jsOrNat_pos _ _ (by norm_num)
  have hPpos : 0 < jsOrNat pollIntervalOpt 5000 := jsOrNat_pos _ _ (by norm_num)
  rw [waitForCompletion_eq]
  have hns :=
    waitLoop_ne_stuck jobId fetches dur (jsOrNat maxWaitOpt 300000)
      (jsOrNat pollIntervalOpt 5000)
      (jsOrNat maxWaitOpt 300000 / jsOrNat pollIntervalOpt 5000 + 1) 0 0
      (fuel_big_enough _ _ hPpos)
  refine ⟨hns, ?_, ?_, ?_, ?_, ?_⟩
  · have hcount :=
      (waitLoop_count jobId fetches dur (jsOrNat maxWaitOpt 300000)
        (jsOrNat pollIntervalOpt 5000) hPpos
        (jsOrNat maxWaitOpt 300000 / jsOrNat pollIntervalOpt 5000 + 2) 0 0 hns).2 hMpos
    have heq : (jsOrNat maxWaitOpt 300000 + jsOrNat pollIntervalOpt 5000 - 1) /
        jsOrNat pollIntervalOpt 5000 =
        (jsOrNat maxWaitOpt 300000 - 1) / jsOrNat pollIntervalOpt 5000 + 1 := by
      have h1 : jsOrNat maxWaitOpt 300000 + jsOrNat pollIntervalOpt 5000 - 1 =
          (jsOrNat maxWaitOpt 300000 - 1) + jsOrNat pollIntervalOpt 5000 := by omega
      rw [h1, Nat.add_div_right _ hPpos]
    rw [heq]
    simp only [Nat.sub_zero] at hcount
    calc fetchCountOf (waitLoop jobId fetches dur (jsOrNat maxWaitOpt 300000)
          (jsOrNat pollIntervalOpt 5000)
          (jsOrNat maxWaitOpt 300000 / jsOrNat pollIntervalOpt 5000 + 2) 0 0)
        ≤ 0 + 1 + (jsOrNat maxWaitOpt 300000 - 1) / jsOrNat pollIntervalOpt 5000 :=
          hcount
      _ ≤ (jsOrNat maxWaitOpt 300000 - 1) / jsOrNat pollIntervalOpt 5000 + 1 + 1 := by
          generalize (jsOrNat maxWaitOpt 300000 - 1) / jsOrNat pollIntervalOpt 5000 = D
          omega
  · intro j t2 k2 s2 h
    obtain ⟨-, -, -, te, hte, rfl⟩ :=
      waitLoop_completed_shape jobId fetches dur (jsOrNat maxWaitOpt 300000)
        (jsOrNat pollIntervalOpt 5000) _ _ _ _ _ _ _ h
    exact Nat.add_lt_add_right hte _
  · intro e t2 k2 s2 h
    have hsh :=
      waitLoop_timedOut_shape jobId fetches dur (jsOrNat maxWaitOpt 300000)
        (jsOrNat pollIntervalOpt 5000) _ _ _ _ _ _ _ h
    exact ⟨hsh.2.1, hsh.1⟩
  · exact ⟨"Job ", " did not complete within " ++
      toString ((jsOrNat maxWaitOpt 300000 : ℚ) / 1000) ++ " seconds", rfl⟩
  · refine ⟨"Job " ++ jobId ++ " did not complete within ", " seconds", ?_⟩
    simp [timeoutMessage, String.append_assoc]

/-- Claim C3: in every `waitForCompletion` call, a fetch whose status is in
the terminal set {moderated, blurred, error, cancelled} is returned
immediately — it is the last fetch (`fetchCount = sleepCount + 1`) and the
elapsed time is the fetch durations plus exactly one poll-interval sleep per
earlier iteration, none after the terminal fetch; a fetch outside the set is
followed by exactly one poll-interval sleep before the next iteration (the
same time equation); and an error raised by a status fetch propagates
unchanged and immediately ends the loop — it is the final fetch, never
retried, with no sleep after it. The configured poll interval defaults to
5000 ms. -/
theorem poller_transitions_c3 (jobId : String)
    (fetches : Nat → Except SdkError JobDetails) (dur : Nat → Nat)
    (maxWaitOpt pollIntervalOpt : Option Nat) :
    (∀ j t2 k2 s2,
      waitForCompletion jobId fetches dur maxWaitOpt pollIntervalOpt =
        PollResult.completed j t2 k2 s2 →
      fetches s2 = Except.ok j ∧ statusIsTerminal j.status = true ∧ k2 = s2 + 1 ∧
      t2 = durSum dur k2 + s2 * jsOrNat pollIntervalOpt 5000) ∧
    (∀ e t2 k2 s2,
      waitForCompletion jobId fetches dur maxWaitOpt pollIntervalOpt =
        PollResult.failed e t2 k2 s2 →
      fetches s2 = Except.error e ∧ k2 = s2 + 1 ∧
      t2 = durSum dur k2 + s2 * jsOrNat pollIntervalOpt 5000) ∧
    jsOrNat none 5000 = 5000 := by
  have htime :=
    waitLoop_time jobId fetches dur (jsOrNat maxWaitOpt 300000)
      (jsOrNat pollIntervalOpt 5000)
      (jsOrNat maxWaitOpt 300000 / jsOrNat pollIntervalOpt 5000 + 2) 0 0 (by simp [durSum])
  refine ⟨?_, ?_, rfl⟩
  · intro j t2 k2 s2 h
    rw [waitForCompletion_eq] at h
    obtain ⟨hk, hfet, hterm, -⟩ :=
      waitLoop_completed_shape jobId fetches dur (jsOrNat maxWaitOpt 300000)
        (jsOrNat pollIntervalOpt 5000) _ _ _ _ _ _ _ h
    exact ⟨hfet, hterm, hk, htime.1 _ _ _ _ h⟩
  · intro e t2 k2 s2 h
    rw [waitForCompletion_eq] at h
    obtain ⟨hk, hfet, -⟩ :=
      waitLoop_failed_shape jobId fetches dur (jsOrNat maxWaitOpt 300000)
        (jsOrNat pollIntervalOpt 5000) _ _ _ _ _ _ _ h
    exact ⟨hfet, hk, htime.2.1 _ _ _ _ h⟩

/-- A job still in progress, as returned by a status fetch. -/
def pendingJob : JobDetails :=
  { id := some "job-1", videoId := some "vid-1", status := some "pending",
    originalUrl := some "https://x/video.mp4", moderatedUrl := none,
    detections := none, geminiAnalysis := none, errorMessage := none,
    processingStartedAt := none, processingCompletedAt := none,
    createdAt := some "2026-01-01T00:00:00Z" }

/-- The same job once moderation has finished. -/
def moderatedJob : JobDetails :=
  { id := some "job-1", videoId := some "vid-1", status := some "moderated",
    originalUrl := some "https://x/video.mp4", moderatedUrl := some "https://x/mod.mp4",
    detections := none, geminiAnalysis := none, errorMessage := none,
    processingStartedAt := none, processingCompletedAt := none,
    createdAt := some "2026-01-01T00:00:00Z" }

/-- A status-fetch trace in which the job never reaches a terminal status. -/
def fetchesPend : Nat → Except SdkError JobDetails := fun _ => Except.ok pendingJob

/-- A status-fetch trace: pending on the first poll, moderated on the second. -/
def fetches01 : Nat → Except SdkError JobDetails := fun k =>
  if k = 0 then Except.ok pendingJob else Except.ok moderatedJob

/-- A trace in which every status fetch completes instantaneously. -/
def dur0 : Nat → Nat := fun _ => 0

/-- Witness for C2 at a concrete input: effective poll interval 3000 ≤
effective max-wait 10000, and the call (which times out after 4 fetches)
terminates. -/
theorem poller_bound_c2_witness :
    jsOrNat (some 3000) 5000 ≤ jsOrNat (some 10000) 300000 ∧
    waitForCompletion "job-1" fetchesPend dur0 (some 10000) (some 3000) ≠
      PollResult.stuck :=
  ⟨by decide,
   (poller_bound_c2 "job-1" fetchesPend dur0 (some 10000) (some 3000) (by decide)).1⟩

/-- Witness for C3 at a concrete trace: pending then moderated with the
default 300000/5000 options gives `completed moderatedJob 5000 2 1`, so the
second fetch is the terminal one, it is final, and the elapsed time is one
5000 ms sleep and no fetch duration. -/
theorem poller_transitions_c3_witness :
    fetches01 1 = Except.ok moderatedJob ∧
    statusIsTerminal moderatedJob.status = true ∧ 2 = 1 + 1 ∧
    5000 = durSum dur0 2 + 1 * jsOrNat none 5000 :=
  (poller_transitions_c3 "job-1" fetches01 dur0 none none).1 moderatedJob 5000 2 1 rfl

/-- A 404 response whose body carries its own resource/id fields — which the
code ignores. -/
def respBody404 : HttpResponse :=
  { status := 404, statusText := "Not Found", retryAfterHeader := none,
    bodyJson := Except.ok (JsVal.obj [("resource", JsVal.str "Video"), ("id", JsVal.str "vid-9")]) }

/-- Counterexample to claim C1 as stated: on a 404 whose body supplies
`resource`/`id`, the raised NotFound error's detail is the fixed pair
`{resource: "Resource", id: "unknown"}`, not the pair from the response
body. -/
theorem errorMapping_notFound_cex_c1 :
    (handleErrorResponse respBody404).details =
      JsVal.obj [("resource", JsVal.str "Resource"), ("id", JsVal.str "unknown")] ∧
    (handleErrorResponse respBody404).details ≠
      JsVal.obj [("resource", JsVal.str "Video"), ("id", JsVal.str "vid-9")] := by
  refine ⟨rfl, ?_⟩
  intro h
  rw [show (handleErrorResponse respBody404).details =
    JsVal.obj [("resource", JsVal.str "Resource"), ("id", JsVal.str "unknown")] from rfl] at h
  simp at h

/-- Claim C1 (amended): for every non-2xx response, 401 raises Authentication
with the body's error message, 403 raises Authentication with the fixed
permission message (both code `AUTHENTICATION_ERROR`); 402 raises
InsufficientFunds with the numeric `required`/`available` fields from the
body, each defaulting to 0 when absent (`asNumOr0 undef = 0`); 404 raises
NotFound with the fixed detail `{resource: "Resource", id: "unknown"}`
regardless of the response body; 429 raises RateLimit carrying the
`retryAfter` detail; and every other status raises a generic error with code
`"HTTP_" ++ status` whose detail is the decoded error body. -/
theorem errorMapping_amended_c1 (r : HttpResponse) (hnon2xx : respOk r = false) :
    (r.status = 401 → handleErrorResponse r = AuthenticationError (respMessage r)) ∧
    (r.status = 403 → handleErrorResponse r =
      AuthenticationError "API key does not have permission for this action") ∧
    (r.status = 401 ∨ r.status = 403 →
      (handleErrorResponse r).code = "AUTHENTICATION_ERROR") ∧
    (r.status = 402 → handleErrorResponse r =
      InsufficientFundsError (asNumOr0 (getField (errorDataOf r) "required"))
        (asNumOr0 (getField (errorDataOf r) "available"))) ∧
    asNumOr0 JsVal.undef = 0 ∧
    (r.status = 404 → handleErrorResponse r = NotFoundError "Resource" "unknown") ∧
    (r.status = 429 →
      handleErrorResponse r = RateLimitError (respMessage r) (retryAfterOf r) ∧
      (handleErrorResponse r).details = JsVal.obj [("retryAfter", retryAfterOf r)]) ∧
    (r.status ≠ 401 → r.status ≠ 402 → r.status ≠ 403 → r.status ≠ 404 →
      r.status ≠ 429 →
      (handleErrorResponse r).code = "HTTP_" ++ toString r.status ∧
      (handleErrorResponse r).details = errorDataOf r) := by
  refine ⟨?_, ?_, ?_, ?_, rfl, ?_, ?_, ?_⟩
  · intro h; simp [handleErrorResponse, h]
  · intro h; simp [handleErrorResponse, h]
  · rintro (h | h) <;> simp [handleErrorResponse, h, AuthenticationError]
  · intro h; simp [handleErrorResponse, h]
  · intro h; simp [handleErrorResponse, h]
  · intro h
    constructor
    · simp [handleErrorResponse, h]
    · simp [handleErrorResponse, h, RateLimitError]
  · intro h1 h2 h3 h4 h5
    constructor <;> simp [handleErrorResponse, h1, h2, h3, h4, h5]

/-- A 500 response with a non-JSON body. -/
def resp500 : HttpResponse :=
  { status := 500, statusText := "Internal Server Error", retryAfterHeader := none,
    bodyJson := Except.error "empty body" }

/-- Witness for the amended C1 at a concrete non-2xx input: a 500 response
maps to the generic `HTTP_500` error carrying the decoded (here empty) body. -/
theorem errorMapping_amended_c1_witness :
    respOk resp500 = false ∧
    (handleErrorResponse resp500).code = "HTTP_" ++ toString resp500.status ∧
    (handleErrorResponse resp500).details = errorDataOf resp500 :=
  ⟨rfl, (errorMapping_amended_c1 resp500 rfl).2.2.2.2.2.2.2
    (by decide) (by decide) (by decide) (by decide) (by decide)⟩

/-- Claim C4: when the deadline elapses before the response, the transport
raises the `TimeoutError` (code `TIMEOUT_ERROR`) and never a Network error;
the in-flight call is cancelled (`controller.abort()` runs); and on every
completion path — success, HTTP error, JSON-decode failure, cancellation, or
network failure — the deadline timer is cleared, so no timer is left armed. -/
theorem transport_deadline_c4 :
    (runRequest FetchOutcome.deadlineExceeded).result =
      Except.error (TimeoutError "Request timed out") ∧
    (TimeoutError "Request timed out").code = "TIMEOUT_ERROR" ∧
    (∀ e, (runRequest FetchOutcome.deadlineExceeded).result = Except.error e →
      e.code ≠ "NETWORK_ERROR") ∧
    (runRequest FetchOutcome.deadlineExceeded).abortCalled = true ∧
    (∀ o, (runRequest o).timerCleared = true) := by
  refine ⟨rfl, rfl, ?_, rfl, ?_⟩
  · intro e he
    have h2 : (Except.error (TimeoutError "Request timed out") : Except SdkError JsVal) =
        Except.error e := he
    injection h2 with h3
    rw [← h3]
    decide
  · intro o
    cases o with
    | completes r =>
      by_cases hok : respOk r = true
      · cases hb : r.bodyJson <;> simp [runRequest, hok, hb]
      · simp [runRequest, hok]
    | deadlineExceeded => rfl
    | networkFailure m => rfl

/-- Witness for C4: discharging the inner implication at the deadline-exceeded
outcome shows the raised error's code is not `NETWORK_ERROR`. -/
theorem transport_deadline_c4_witness :
    (TimeoutError "Request timed out").code ≠ "NETWORK_ERROR" :=
  transport_deadline_c4.2.2.1 (TimeoutError "Request timed out") rfl

/-- Claim C5: a missing or empty wire collection makes `getJobStatus` raise
NotFound with detail `{resource: "Job", id: jobId}`; a non-empty collection
yields its first element with every wire field remapped to the canonical
`JobDetails` field name (`video_id` to `videoId`, `error_msg` to
`errorMessage`, and so on), fields absent on the wire staying `none`. -/
theorem getJobStatus_c5 (jobId : String) (w : WireJob) (rest : List WireJob) :
    getJobStatus jobId none = Except.error (NotFoundError "Job" jobId) ∧
    getJobStatus jobId (some []) = Except.error (NotFoundError "Job" jobId) ∧
    (NotFoundError "Job" jobId).details =
      JsVal.obj [("resource", JsVal.str "Job"), ("id", JsVal.str jobId)] ∧
    getJobStatus jobId (some (w :: rest)) =
      Except.ok
        { id := w.id, videoId := w.video_id, status := w.status,
          originalUrl := w.original_url, moderatedUrl := w.moderated_url,
          detections := w.detections, geminiAnalysis := w.gemini_analysis,
          errorMessage := w.error_msg, processingStartedAt := w.processing_started_at,
          processingCompletedAt := w.processing_completed_at,
          createdAt := w.created_at } :=
  ⟨rfl, rfl, rfl, rfl⟩

/-- Witness for C5 at a concrete wire record with most fields absent: absent
wire fields remain `none` on the canonical record. -/
theorem getJobStatus_c5_witness :
    getJobStatus "job-9" (some [{ id := some "job-9", status := some "pending" }]) =
      Except.ok
        { id := some "job-9", videoId := none, status := some "pending",
          originalUrl := none, moderatedUrl := none, detections := none,
          geminiAnalysis := none, errorMessage := none, processingStartedAt := none,
          processingCompletedAt := none, createdAt := none } :=
  (getJobStatus_c5 "job-9" { id := some "job-9", status := some "pending" } []).2.2.2

/-- Claim C6: a moderation request in which videoUrl, gcsUri and filePath are
all falsy (absent or empty) makes `moderate` raise the generic
`VALIDATION_ERROR` and issue no POST: the validation failure is produced
before — and instead of — any transport invocation. -/
theorem moderate_validation_c6 (opts : ModerateOptions)
    (h1 : strFalsy opts.videoUrl = true) (h2 : strFalsy opts.gcsUri = true)
    (h3 : strFalsy opts.filePath = true) :
    moderate opts = SubmitAction.validationFailure
      { name := "VidSentryError",
        message := "One of videoUrl, gcsUri, or filePath is required",
        code := "VALIDATION_ERROR", details := JsVal.undef } ∧
    ∀ p b, moderate opts ≠ SubmitAction.post p b := by
  have hmod : moderate opts = SubmitAction.validationFailure
      { name := "VidSentryError",
        message := "One of videoUrl, gcsUri, or filePath is required",
        code := "VALIDATION_ERROR", details := JsVal.undef } := by
    simp only [moderate]
    rw [if_pos ⟨h1, h2, h3⟩]
  refine ⟨hmod, ?_⟩
  intro p b
  rw [hmod]
  simp

/-- Witness for C6: an all-absent request raises the validation error. -/
theorem moderate_validation_c6_witness :
    strFalsy (none : Option String) = true ∧
    moderate {} = SubmitAction.validationFailure
      { name := "VidSentryError",
        message := "One of videoUrl, gcsUri, or filePath is required",
        code := "VALIDATION_ERROR", details := JsVal.undef } :=
  ⟨rfl, (moderate_validation_c6 {} rfl rfl rfl).1⟩

/-- Claim C7: constructing a client with an empty API key, or with a key not
starting with the literal `vs_` marker, raises an Authentication error (code
`AUTHENTICATION_ERROR`). `mkVidSentry` is a pure function of the
configuration — construction performs no HTTP call. -/
theorem constructor_auth_c7 (cfg : VidSentryConfig)
    (h : cfg.apiKey = "" ∨ startsWithVs cfg.apiKey = false) :
    ∃ msg, mkVidSentry cfg = Except.error (AuthenticationError msg) ∧
      (AuthenticationError msg).code = "AUTHENTICATION_ERROR" := by
  by_cases he : cfg.apiKey = ""
  · exact ⟨"API key is required", by simp [mkVidSentry, he], rfl⟩
  · have hsw : startsWithVs cfg.apiKey = false := by
      rcases h with h | h
      · exact absurd h he
      · exact h
    exact ⟨"Invalid API key format. Keys should start with vs_live_ or vs_test_",
      by simp [mkVidSentry, he, hsw], rfl⟩

/-- Witness for C7 at a wrongly-prefixed concrete key. -/
theorem constructor_auth_c7_witness :
    startsWithVs "sk_test_123" = false ∧
    (∃ msg, mkVidSentry { apiKey := "sk_test_123" } =
        Except.error (AuthenticationError msg) ∧
      (AuthenticationError msg).code = "AUTHENTICATION_ERROR") :=
  ⟨by decide, constructor_auth_c7 { apiKey := "sk_test_123" } (Or.inr (by decide))⟩

/-- Claim C10: every key starting with the three-character prefix `vs_` is
accepted — construction succeeds and stores the key unchanged — even when the
key (such as `vs_x`) matches neither of the `vs_live_`/`vs_test_` classes
that the error message and the configuration documentation name. -/
theorem constructor_accepts_vs_c10 (cfg : VidSentryConfig)
    (h : startsWithVs cfg.apiKey = true) :
    ∃ c, mkVidSentry cfg = Except.ok c ∧ c.apiKey = cfg.apiKey := by
  have he : ¬ cfg.apiKey = "" := by
    intro he
    rw [he] at h
    exact absurd h (by decide)
  have h2 : ¬ (startsWithVs cfg.apiKey = false) := by simp [h]
  refine ⟨{ apiKey := cfg.apiKey,
            baseUrl := jsOrStr cfg.baseUrl "https://cyzacqndakvnxhohmbgx.supabase.co",
            timeout := jsOrNat cfg.timeout 30000,
            debug := cfg.debug.getD false }, ?_, rfl⟩
  simp [mkVidSentry, he, h2]

/-- Witness for C10 at the concrete key `vs_x` (neither `vs_live_` nor
`vs_test_` class): construction succeeds. -/
theorem constructor_accepts_vs_c10_witness :
    startsWithVs "vs_x" = true ∧
    ∃ c, mkVidSentry { apiKey := "vs_x" } = Except.ok c ∧ c.apiKey = "vs_x" :=
  ⟨by decide, constructor_accepts_vs_c10 { apiKey := "vs_x" } (by decide)⟩

/-- A 429 response whose `Retry-After` header is present but not parsable as
an integer. -/
def resp429bad : HttpResponse :=
  { status := 429, statusText := "Too Many Requests", retryAfterHeader := some "soon",
    bodyJson := Except.error "not json" }

/-- Counterexample to claim C8 as stated: on a 429 whose `Retry-After` header
is `"soon"` (present but unparsable), the `retryAfter` detail is `NaN`, not
the claimed default of 60. -/
theorem retryAfter_cex_c8 :
    (handleErrorResponse resp429bad).details = JsVal.obj [("retryAfter", JsVal.nan)] ∧
    JsVal.nan ≠ JsVal.num 60 :=
  ⟨rfl, fun h => JsVal.noConfusion h⟩

/-- Claim C8 (amended): for every 429 response, the `retryAfter` detail is
the integer `parseInt` extracts from the `Retry-After` header when one is
found; it is 60 when the header is absent or the empty string (both falsy,
so the literal `'60'` is parsed instead); and when the header is a non-empty
string from which `parseInt` extracts no integer, the detail is `NaN`
rather than 60. -/
theorem retryAfter_amended_c8 (r : HttpResponse) (h429 : r.status = 429) :
    (∀ s n, r.retryAfterHeader = some s → s ≠ "" → parseIntJS s = some n →
      (handleErrorResponse r).details = JsVal.obj [("retryAfter", JsVal.num (n : ℚ))]) ∧
    (r.retryAfterHeader = none →
      (handleErrorResponse r).details = JsVal.obj [("retryAfter", JsVal.num 60)]) ∧
    (r.retryAfterHeader = some "" →
      (handleErrorResponse r).details = JsVal.obj [("retryAfter", JsVal.num 60)]) ∧
    (∀ s, r.retryAfterHeader = some s → s ≠ "" → parseIntJS s = none →
      (handleErrorResponse r).details = JsVal.obj [("retryAfter", JsVal.nan)]) := by
  have hred : handleErrorResponse r = RateLimitError (respMessage r) (retryAfterOf r) := by
    simp [handleErrorResponse, h429]
  have hdet : (handleErrorResponse r).details =
      JsVal.obj [("retryAfter", retryAfterOf r)] := by
    rw [hred]
    rfl
  refine ⟨?_, ?_, ?_, ?_⟩
  · intro s n hs hse hp
    rw [hdet]
    simp [retryAfterOf, jsOrStr, hs, hse, hp]
  · intro hs
    rw [hdet]
    have h60 : parseIntJS "60" = some 60 := rfl
    simp [retryAfterOf, jsOrStr, hs, h60]
  · intro hs
    rw [hdet]
    have h60 : parseIntJS "60" = some 60 := rfl
    simp [retryAfterOf, jsOrStr, hs, h60]
  · intro s hs hse hp
    rw [hdet]
    simp [retryAfterOf, jsOrStr, hs, hse, hp]

/-- A 429 response carrying a parsable `Retry-After: 120` header. -/
def resp429hdr : HttpResponse :=
  { status := 429, statusText := "Too Many Requests", retryAfterHeader := some "120",
    bodyJson := Except.error "not json" }

/-- Witness for the amended C8 at a concrete 429 with `Retry-After: 120`. -/
theorem retryAfter_amended_c8_witness :
    resp429hdr.status = 429 ∧
    (handleErrorResponse resp429hdr).details =
      JsVal.obj [("retryAfter", JsVal.num ((120 : Int) : ℚ))] :=
  ⟨rfl, (retryAfter_amended_c8 resp429hdr rfl).1 "120" 120 rfl (by decide) rfl⟩

/-- Counterexample to claim C9 as stated: a caller-supplied empty title is
not passed through unchanged — the body carries the `"SDK Upload"`
placeholder instead of the supplied `""` (JavaScript `||` treats the empty
string as falsy). -/
theorem moderate_title_cex_c9 :
    moderate { videoUrl := some "https://x/video.mp4", title := some "" } =
      SubmitAction.post "/functions/v1/unified-moderate"
        { title := "SDK Upload", videoUrl := some "https://x/video.mp4",
          gcsUri := none, filePath := none, tier := "standard",
          settings := defaultSettings } ∧
    ModerateOptions.title { videoUrl := some "https://x/video.mp4", title := some "" } =
      some "" ∧
    ("SDK Upload" : String) ≠ "" :=
  ⟨rfl, rfl, by decide⟩

/-- Claim C9 (amended): for every moderation request with at least one truthy
content locator, `moderate` issues exactly one POST to
`/functions/v1/unified-moderate` whose body carries the given fields with
`||`-defaults applied: title falls back to `"SDK Upload"` when absent or
empty, tier falls back to `"standard"` when absent or empty, settings fall
back to `{blur: true, mute: true}` when absent; a supplied non-empty title
or tier and supplied settings are passed through unchanged, and the three
locators are passed through exactly as given. -/
theorem moderate_defaults_amended_c9 (opts : ModerateOptions)
    (h : ¬(strFalsy opts.videoUrl = true ∧ strFalsy opts.gcsUri = true ∧
      strFalsy opts.filePath = true)) :
    moderate opts = SubmitAction.post "/functions/v1/unified-moderate"
      { title := jsOrStr opts.title "SDK Upload",
        videoUrl := opts.videoUrl, gcsUri := opts.gcsUri, filePath := opts.filePath,
        tier := jsOrStr opts.tier "standard",
        settings := opts.settings.getD defaultSettings } ∧
    jsOrStr none "SDK Upload" = "SDK Upload" ∧
    jsOrStr none "standard" = "standard" ∧
    Option.getD none defaultSettings = defaultSettings ∧
    (∀ s : String, s ≠ "" → jsOrStr (some s) "SDK Upload" = s) ∧
    (∀ s : String, s ≠ "" → jsOrStr (some s) "standard" = s) ∧
    (∀ st : ModerationSettings, Option.getD (some st) defaultSettings = st) := by
  refine ⟨?_, rfl, rfl, rfl, ?_, ?_, fun st => rfl⟩
  · simp only [moderate]
    rw [if_neg h]
  · intro s hs
    simp [jsOrStr, hs]
  · intro s hs
    simp [jsOrStr, hs]

/-- Witness for the amended C9 at a concrete request with only a video URL:
all three defaults apply and the locator passes through. -/
theorem moderate_defaults_amended_c9_witness :
    moderate { videoUrl := some "https://x/video.mp4" } =
      SubmitAction.post "/functions/v1/unified-moderate"
        { title := jsOrStr none "SDK Upload", videoUrl := some "https://x/video.mp4",
          gcsUri := none, filePath := none, tier := jsOrStr none "standard",
          settings := Option.getD none defaultSettings } :=
  (moderate_defaults_amended_c9 { videoUrl := some "https://x/video.mp4" } (by decide)).1
